import Mathlib

/-!
Verification of the source-code structural parser and classifier subsystem:
the AST-parsing, complexity-scoring and comment-taxonomy logic of the
deep-dive / python-refactor tooling (ast_parser.py, classifier.py,
measure_complexity.py, comment_rewriter.py).

Source text is modelled as `List Char`.  The Python `re` patterns used by the
code are embedded through a small backtracking matcher combinator library
whose result lists are ordered by the backtracking preference of the Python
engine (greedy quantifiers first, alternatives in written order), so that
`head?` of a result list is the match Python would produce.  Word characters
and whitespace follow the ASCII semantics of the patterns involved.
-/

namespace DeepDive

/-- Python regex `\w` over ASCII: letters, digits and underscore. -/
def isWordChar (c : Char) : Bool := c.isAlphanum || c = '_'

/-- Python regex `\s` over ASCII: space, tab, newline, CR, VT, FF. -/
def isPySpace (c : Char) : Bool :=
  c = ' ' || c = '\t' || c = '\n' || c = '\r' || c = '\x0b' || c = '\x0c'

/-- A matcher consumes input from a position given by the previous character
(for word boundaries) and the remaining input; it returns every possible
(last consumed character, remaining input) continuation, in the order the
Python backtracking engine would try them. -/
abbrev Matcher : Type := Option Char → List Char → List (Option Char × List Char)

/-- Empty pattern: zero-width success. -/
def epsM : Matcher := fun prev s => [(prev, s)]

/-- Single character from a class. -/
def charM (p : Char → Bool) : Matcher := fun _ s =>
  match s with
  | [] => []
  | c :: r => if p c then [(some c, r)] else []

/-- Sequencing of two patterns. -/
def seqM (m1 m2 : Matcher) : Matcher := fun prev s =>
  (m1 prev s).flatMap (fun pr => m2 pr.1 pr.2)

/-- Alternation, left alternative preferred (Python tries it first). -/
def altM (m1 m2 : Matcher) : Matcher := fun prev s => m1 prev s ++ m2 prev s

/-- Greedy `?`: the consuming alternative is preferred. -/
def optM (m : Matcher) : Matcher := fun prev s => m prev s ++ [(prev, s)]

/-- Greedy `*` over a character class: longest consumption first. -/
def starM (p : Char → Bool) : Matcher
  | prev, [] => [(prev, [])]
  | prev, c :: r =>
    (if p c then starM p (some c) r else []) ++ [(prev, c :: r)]

/-- Greedy `+` over a character class. -/
def plusM (p : Char → Bool) : Matcher := seqM (charM p) (starM p)

/-- Case-sensitive literal. -/
def litM : List Char → Matcher
  | [] => epsM
  | c :: w => seqM (charM (fun d => d = c)) (litM w)

/-- Case-insensitive literal (`re.IGNORECASE`), ASCII case folding. -/
def litCIM : List Char → Matcher
  | [] => epsM
  | c :: w => seqM (charM (fun d => d.toLower = c.toLower)) (litCIM w)

def isWordOpt : Option Char → Bool
  | none => false
  | some c => isWordChar c

def headIsWord : List Char → Bool
  | [] => false
  | c :: _ => isWordChar c

/-- Zero-width word boundary `\b`: word-ness differs on the two sides. -/
def boundaryM : Matcher := fun prev s =>
  if isWordOpt prev != headIsWord s then [(prev, s)] else []

/-- End anchor `$`: at end of input or just before a final newline. -/
def endM : Matcher := fun prev s =>
  match s with
  | [] => [(prev, [])]
  | [ '\n'] => [(prev, [ '\n'])]
  | _ => []

/-- Core of `re.search`: try the pattern at every start position. -/
def searchM (m : Matcher) : Option Char → List Char → Bool
  | prev, [] => !(m prev []).isEmpty
  | prev, c :: r => !(m prev (c :: r)).isEmpty || searchM m (some c) r

/-- Python `pattern.search(s)`. -/
def search (m : Matcher) (s : List Char) : Bool := searchM m none s

/-- Python `pattern.match(s)`: anchored at the start. -/
def matchAtStart (m : Matcher) (s : List Char) : Bool := !(m none s).isEmpty

/-- Python's leftmost match at the current position, with backtracking
preference: `head?` of the combinator results. -/
def headMatch (m : Matcher) (prev : Option Char) (s : List Char) :
    Option (Option Char × List Char) :=
  (m prev s).head?

/-- Characters of a string literal. -/
def str (s : String) : List Char := s.data

/-- Pattern `\bWORD\b`. -/
def wordM (w : List Char) : Matcher := seqM boundaryM (seqM (litM w) boundaryM)

/-- Pattern `\bWORD\b` with `re.IGNORECASE`. -/
def wordCIM (w : List Char) : Matcher := seqM boundaryM (seqM (litCIM w) boundaryM)

/-- Bool test: w is a prefix of s (character-wise). -/
def startsList : List Char → List Char → Bool
  | [], _ => true
  | _ :: _, [] => false
  | c :: w, d :: s => c = d && startsList w s

/-- Python `w in s` substring test. -/
def containsSub (w : List Char) : List Char → Bool
  | [] => startsList w []
  | c :: r => startsList w (c :: r) || containsSub w r

/-- Fuel-bounded core of `countSub`; fuel bounds scan steps and each step
consumes at least one character, so `length s` fuel is always enough. -/
def countSubFuel (w : List Char) : Nat → List Char → Nat
  | 0, _ => 0
  | _, [] => 0
  | fuel + 1, c :: r =>
    if startsList w (c :: r) then 1 + countSubFuel w fuel (List.drop (w.length - 1) r)
    else countSubFuel w fuel r

/-- Python `s.count(w)`: non-overlapping occurrence count. -/
def countSub (w s : List Char) : Nat := countSubFuel w s.length s

/-- Python `s.strip()` over ASCII whitespace. -/
def stripChars (s : List Char) : List Char :=
  ((s.dropWhile isPySpace).reverse.dropWhile isPySpace).reverse

/-- Python `s.split("\n")` (always at least one piece). -/
def splitOnNl : List Char → List (List Char)
  | [] => [[]]
  | c :: r =>
    if c = '\n' then [] :: splitOnNl r
    else
      match splitOnNl r with
      | [] => [[c]]
      | l :: ls => (c :: l) :: ls

/-!
classifier.py — `count_lines`, `count_imports`, `find_patterns`,
`classify_from_content` (classify_file reads the file and delegates to
`classify_from_content`, the canonical implementation).
-/

def tripleDouble : List Char := str "\x22\x22\x22"

def tripleSingle : List Char := str "\x27\x27\x27"

/-- One iteration of the `count_lines` loop body: given the in_docstring flag
and a raw line, return the updated flag and this line's contribution. -/
def countLineStep (inDoc : Bool) (line : List Char) : Bool × Nat :=
  let stripped := stripChars line
  if stripped.isEmpty then (inDoc, 0)
  else if containsSub tripleDouble stripped || containsSub tripleSingle stripped then
    let td := countSub tripleDouble stripped
    let ts := countSub tripleSingle stripped
    if td = 2 || ts = 2 then (inDoc, 0)
    else if td = 1 || ts = 1 then (!inDoc, 0)
    else if inDoc then (inDoc, 0)
    else if startsList (str "#") stripped then (inDoc, 0)
    else (inDoc, 1)
  else if inDoc then (inDoc, 0)
  else if startsList (str "#") stripped then (inDoc, 0)
  else (inDoc, 1)

def countLinesGo (inDoc : Bool) : List (List Char) → Nat
  | [] => 0
  | line :: rest =>
    let st := countLineStep inDoc line
    st.2 + countLinesGo st.1 rest

/-- classifier.count_lines: non-empty, non-comment, non-docstring lines. -/
def count_lines (content : List Char) : Nat :=
  countLinesGo false (splitOnNl content)

/-- The regex `^(?:from\s+\S+\s+)?import\s+` of `count_imports` (the `^`
anchor is handled by the position scan below). -/
def importStmtM : Matcher :=
  seqM
    (optM (seqM (litM (str "from"))
      (seqM (plusM isPySpace) (seqM (plusM (fun c => !isPySpace c)) (plusM isPySpace)))))
    (seqM (litM (str "import")) (plusM isPySpace))

/-- `re.findall` scan with `re.MULTILINE`: attempt the pattern at the start
of the string and after every newline; on a match continue after its end.
Fuel bounds scan steps; every step consumes at least one character. -/
def countImportsGo : Nat → Bool → List Char → Nat
  | 0, _, _ => 0
  | fuel + 1, atStart, s =>
    match (if atStart then headMatch importStmtM none s else none) with
    | some pr => 1 + countImportsGo fuel (pr.1 = some '\n') pr.2
    | none =>
      match s with
      | [] => 0
      | c :: r => countImportsGo fuel (c = '\n') r

/-- classifier.count_imports. -/
def count_imports (content : List Char) : Nat :=
  countImportsGo (content.length + 1) true content

/-- The union of `CRITICAL_PATTERNS` and `COMPLEXITY_PATTERNS` regexes, one
constructor per regex in classifier.py. -/
inductive Pat
  | auth | token | jwt | secret | credential | password | permission
  | accessControl | encrypt | decrypt | privateKey | apiKey | session
  | oauth | security
  | asyncDef | await | stateMachine | fsm | transition | circuitBreaker
  | retry | backoff | lock | semaphore | mutex | thread | process | queue
  | callback | eventLoop
deriving DecidableEq, Repr

/-- Matcher for any character matched by `.` (no DOTALL: not a newline). -/
def dotM : Matcher := charM (fun c => c ≠ '\n')

/-- The regex each `Pat` stands for, as written in classifier.py.  The
patterns are applied to lowercased content, so `re.IGNORECASE` is inert. -/
def patMatcher : Pat → Matcher
  | .auth => seqM boundaryM (litM (str "auth"))
  | .token => wordM (str "token")
  | .jwt => wordM (str "jwt")
  | .secret => wordM (str "secret")
  | .credential => seqM boundaryM (litM (str "credential"))
  | .password => wordM (str "password")
  | .permission => seqM boundaryM (litM (str "permission"))
  | .accessControl =>
    seqM boundaryM (seqM (litM (str "access")) (seqM (optM dotM) (litM (str "control"))))
  | .encrypt => seqM boundaryM (litM (str "encrypt"))
  | .decrypt => seqM boundaryM (litM (str "decrypt"))
  | .privateKey =>
    seqM boundaryM (seqM (litM (str "private")) (seqM (optM dotM) (litM (str "key"))))
  | .apiKey =>
    seqM boundaryM (seqM (litM (str "api")) (seqM (optM dotM) (litM (str "key"))))
  | .session => wordM (str "session")
  | .oauth => seqM boundaryM (litM (str "oauth"))
  | .security => seqM boundaryM (litM (str "security"))
  | .asyncDef =>
    seqM boundaryM (seqM (litM (str "async"))
      (seqM (plusM isPySpace) (seqM (litM (str "def")) boundaryM)))
  | .await => wordM (str "await")
  | .stateMachine =>
    seqM (wordM (str "state")) (seqM (starM (fun c => c ≠ '\n')) (wordM (str "machine")))
  | .fsm => wordM (str "fsm")
  | .transition => wordM (str "transition")
  | .circuitBreaker =>
    seqM boundaryM (seqM (litM (str "circuit"))
      (seqM (optM dotM) (seqM (litM (str "breaker")) boundaryM)))
  | .retry => wordM (str "retry")
  | .backoff => wordM (str "backoff")
  | .lock => wordM (str "lock")
  | .semaphore => wordM (str "semaphore")
  | .mutex => wordM (str "mutex")
  | .thread => wordM (str "thread")
  | .process => wordM (str "process")
  | .queue => wordM (str "queue")
  | .callback => wordM (str "callback")
  | .eventLoop =>
    seqM boundaryM (seqM (litM (str "event"))
      (seqM (optM dotM) (seqM (litM (str "loop")) boundaryM)))

/-- classifier.CRITICAL_PATTERNS in list order. -/
def CRITICAL_PATTERNS : List Pat :=
  [.auth, .token, .jwt, .secret, .credential, .password, .permission,
   .accessControl, .encrypt, .decrypt, .privateKey, .apiKey, .session,
   .oauth, .security]

/-- classifier.COMPLEXITY_PATTERNS in list order. -/
def COMPLEXITY_PATTERNS : List Pat :=
  [.asyncDef, .await, .stateMachine, .fsm, .transition, .circuitBreaker,
   .retry, .backoff, .lock, .semaphore, .mutex, .thread, .process, .queue,
   .callback, .eventLoop]

/-- classifier.find_patterns: which patterns match the lowercased content. -/
def find_patterns (content : List Char) (patterns : List Pat) : List Pat :=
  let contentLower := content.map Char.toLower
  patterns.filter (fun p => search (patMatcher p) contentLower)

def HIGH_LOC_THRESHOLD : Nat := 300
def HIGH_DEPS_THRESHOLD : Nat := 5
def HIGH_COMPLEXITY_PATTERN_THRESHOLD : Nat := 3
def UTILITY_LOC_MAX : Nat := 100
def UTILITY_DEPS_MAX : Nat := 3
def CRITICAL_PATTERN_MIN : Nat := 3

inductive Classification
  | critical | highComplexity | standard | utility
deriving DecidableEq, BEq, Repr

structure ClassificationResult where
  classification : Classification
  lines_of_code : Nat
  num_dependencies : Nat
  critical_patterns_found : List Pat
  complexity_indicators : List Pat
  verification_required : Bool
  reasoning : String
deriving DecidableEq, Repr

/-- classifier.py line 184: the primary critical patterns. -/
def PRIMARY_CRITICAL : List Pat := [.auth, .secret, .credential, .encrypt]

/-- The classification decision chain of `classify_from_content`
(lines 186-213), returning the label and the reasoning parts. -/
def decideClassification (loc num_deps : Nat) (critical_found complexity_found : List Pat) :
    Classification × List String :=
  let has_primary_critical := PRIMARY_CRITICAL.any (fun p => critical_found.contains p)
  if critical_found ≠ [] then
    if CRITICAL_PATTERN_MIN ≤ critical_found.length ∨ has_primary_critical = true then
      (Classification.critical,
       ["Critical patterns found: " ++ toString critical_found.length ++ " matches"])
    else
      (Classification.highComplexity,
       ["Some critical patterns: " ++ toString critical_found.length])
  else if HIGH_LOC_THRESHOLD < loc ∨ HIGH_DEPS_THRESHOLD < num_deps ∨
      HIGH_COMPLEXITY_PATTERN_THRESHOLD ≤ complexity_found.length then
    (Classification.highComplexity,
     (if HIGH_LOC_THRESHOLD < loc then ["High LOC: " ++ toString loc] else []) ++
     (if HIGH_DEPS_THRESHOLD < num_deps then
        ["Many dependencies: " ++ toString num_deps] else []) ++
     (if HIGH_COMPLEXITY_PATTERN_THRESHOLD ≤ complexity_found.length then
        ["Complexity patterns: " ++ toString complexity_found.length] else []))
  else if loc < UTILITY_LOC_MAX ∧ num_deps ≤ UTILITY_DEPS_MAX ∧ complexity_found = [] then
    (Classification.utility, ["Small file with few dependencies"])
  else
    (Classification.standard, ["Standard business logic"])

/-- classifier.classify_from_content. -/
def classify_from_content (content : List Char) : ClassificationResult :=
  let loc := count_lines content
  let num_deps := count_imports content
  let critical_found := find_patterns content CRITICAL_PATTERNS
  let complexity_found := find_patterns content COMPLEXITY_PATTERNS
  let decided := decideClassification loc num_deps critical_found complexity_found
  let classification := decided.1
  let verification_required :=
    classification == Classification.critical ||
      classification == Classification.highComplexity
  ⟨classification, loc, num_deps, critical_found, complexity_found,
   verification_required, String.intercalate "; " decided.2⟩

/-- A search succeeding for a stronger matcher succeeds for a weaker one. -/
theorem searchM_of_impl {m1 m2 : Matcher}
    (h : ∀ p s, m1 p s ≠ [] → m2 p s ≠ []) :
    ∀ prev s, searchM m1 prev s = true → searchM m2 prev s = true := by
  intro prev s
  induction s generalizing prev with
  | nil =>
    simp only [searchM, Bool.not_eq_true', List.isEmpty_eq_false]
    exact h _ _
  | cons c r ih =>
    simp only [searchM, Bool.or_eq_true, Bool.not_eq_true', List.isEmpty_eq_false]
    rintro (h1 | h2)
    · exact Or.inl (h _ _ h1)
    · exact Or.inr (ih _ h2)

/-- Nonemptiness of a sequenced matcher result, unfolded one step. -/
theorem seqM_ne_nil {m1 m2 : Matcher} {p : Option Char} {s : List Char} :
    seqM m1 m2 p s ≠ [] ↔ ∃ pr, pr ∈ m1 p s ∧ m2 pr.1 pr.2 ≠ [] := by
  simp only [seqM, ne_eq, List.flatMap_eq_nil_iff, not_forall, exists_prop]

/-- A match of `\bW\b` at a position yields a match of `\bW` there. -/
theorem wordM_imp_prefixM (w : List Char) (p : Option Char) (s : List Char)
    (h : wordM w p s ≠ []) : seqM boundaryM (litM w) p s ≠ [] := by
  unfold wordM at h
  obtain ⟨a, ha, h2⟩ := seqM_ne_nil.mp h
  obtain ⟨b, hb, _⟩ := seqM_ne_nil.mp h2
  exact seqM_ne_nil.mpr ⟨a, ha, List.ne_nil_of_mem hb⟩

/-- With at least three matched critical patterns the decision chain
classifies CRITICAL. -/
theorem decideClassification_critical (loc num_deps : Nat)
    (critical_found complexity_found : List Pat)
    (h : 3 ≤ critical_found.length) :
    (decideClassification loc num_deps critical_found complexity_found).1 =
      Classification.critical := by
  have hne : critical_found ≠ [] := by
    intro he
    rw [he] at h
    simp at h
  have hcond : CRITICAL_PATTERN_MIN ≤ critical_found.length ∨
      (PRIMARY_CRITICAL.any fun p => critical_found.contains p) = true := Or.inl h
  simp only [decideClassification]
  rw [if_pos hne, if_pos hcond]

/-- C2: for every source text in which "password", "encrypt" and "jwt" each
occur as whole words (matching the regexes `\bpassword\b`, `\bencrypt\b`,
`\bjwt\b` on the lowercased content), classify_from_content returns
classification CRITICAL with verification_required = True. -/
theorem C2_three_critical_words_give_critical (content : List Char)
    (hp : search (wordM (str "password")) (content.map Char.toLower) = true)
    (he : search (wordM (str "encrypt")) (content.map Char.toLower) = true)
    (hj : search (wordM (str "jwt")) (content.map Char.toLower) = true) :
    (classify_from_content content).classification = Classification.critical ∧
    (classify_from_content content).verification_required = true := by
  have hfp : search (patMatcher Pat.password) (content.map Char.toLower) = true := hp
  have hfj : search (patMatcher Pat.jwt) (content.map Char.toLower) = true := hj
  have hfe : search (patMatcher Pat.encrypt) (content.map Char.toLower) = true :=
    searchM_of_impl (wordM_imp_prefixM (str "encrypt")) none _ he
  have hsub : List.Sublist [Pat.jwt, Pat.password, Pat.encrypt] CRITICAL_PATTERNS := by
    decide
  have hfil : List.filter (fun p => search (patMatcher p) (content.map Char.toLower))
      [Pat.jwt, Pat.password, Pat.encrypt] = [Pat.jwt, Pat.password, Pat.encrypt] := by
    simp [List.filter, hfj, hfp, hfe]
  have h2 := List.Sublist.filter
    (fun p => search (patMatcher p) (content.map Char.toLower)) hsub
  rw [hfil] at h2
  have hlen : 3 ≤ (find_patterns content CRITICAL_PATTERNS).length := by
    simpa [find_patterns] using h2.length_le
  have hcls : (classify_from_content content).classification = Classification.critical := by
    have hproj : (classify_from_content content).classification =
        (decideClassification (count_lines content) (count_imports content)
          (find_patterns content CRITICAL_PATTERNS)
          (find_patterns content COMPLEXITY_PATTERNS)).1 := rfl
    rw [hproj]
    exact decideClassification_critical _ _ _ _ hlen
  refine ⟨hcls, ?_⟩
  have hv : (classify_from_content content).verification_required =
      ((classify_from_content content).classification == Classification.critical ||
       (classify_from_content content).classification == Classification.highComplexity) := rfl
  rw [hv, hcls]
  rfl

/-- Witness for C2 at the concrete content "password encrypt jwt". -/
theorem C2_witness :
    (search (wordM (str "password")) ((str "password encrypt jwt").map Char.toLower) = true ∧
     search (wordM (str "encrypt")) ((str "password encrypt jwt").map Char.toLower) = true ∧
     search (wordM (str "jwt")) ((str "password encrypt jwt").map Char.toLower) = true) ∧
    (classify_from_content (str "password encrypt jwt")).classification =
      Classification.critical ∧
    (classify_from_content (str "password encrypt jwt")).verification_required = true :=
  ⟨⟨by decide, by decide, by decide⟩,
   C2_three_critical_words_give_critical (str "password encrypt jwt")
     (by decide) (by decide) (by decide)⟩

/-- C9: for every input text, verification_required is true exactly when the
classification is CRITICAL or HIGH_COMPLEXITY. -/
theorem C9_verification_required_iff (content : List Char) :
    (classify_from_content content).verification_required = true ↔
      ((classify_from_content content).classification = Classification.critical ∨
       (classify_from_content content).classification = Classification.highComplexity) := by
  have h : (classify_from_content content).verification_required =
      ((classify_from_content content).classification == Classification.critical ||
       (classify_from_content content).classification == Classification.highComplexity) := rfl
  rw [h]
  generalize (classify_from_content content).classification = c
  cases c <;> decide

/-- C8: with no critical match, no complexity-indicator match, fewer than 100
counted lines and at most 3 counted imports, the classification is UTILITY. -/
theorem C8_small_clean_file_is_utility (content : List Char)
    (hcrit : find_patterns content CRITICAL_PATTERNS = [])
    (hcomp : find_patterns content COMPLEXITY_PATTERNS = [])
    (hloc : count_lines content < 100)
    (hdeps : count_imports content ≤ 3) :
    (classify_from_content content).classification = Classification.utility := by
  have hproj : (classify_from_content content).classification =
      (decideClassification (count_lines content) (count_imports content)
        (find_patterns content CRITICAL_PATTERNS)
        (find_patterns content COMPLEXITY_PATTERNS)).1 := rfl
  rw [hproj, hcrit, hcomp]
  have h1 : ¬ (([] : List Pat) ≠ []) := by simp
  have h2 : ¬ (HIGH_LOC_THRESHOLD < count_lines content ∨
      HIGH_DEPS_THRESHOLD < count_imports content ∨
      HIGH_COMPLEXITY_PATTERN_THRESHOLD ≤ ([] : List Pat).length) := by
    simp only [HIGH_LOC_THRESHOLD, HIGH_DEPS_THRESHOLD,
      HIGH_COMPLEXITY_PATTERN_THRESHOLD, List.length_nil]
    omega
  have h3 : count_lines content < UTILITY_LOC_MAX ∧
      count_imports content ≤ UTILITY_DEPS_MAX ∧ True :=
    ⟨hloc, hdeps, trivial⟩
  simp only [decideClassification]
  rw [if_neg h1, if_neg h2, if_pos h3]

/-- A concrete 50-line file with 2 imports and no pattern matches, the
spec's example instance for the UTILITY rule. -/
def utilityWitnessContent : List Char := str "import os\nimport re\na1 = 1\na2 = 2\na3 = 3\na4 = 4\na5 = 5\na6 = 6\na7 = 7\na8 = 8\na9 = 9\na10 = 10\na11 = 11\na12 = 12\na13 = 13\na14 = 14\na15 = 15\na16 = 16\na17 = 17\na18 = 18\na19 = 19\na20 = 20\na21 = 21\na22 = 22\na23 = 23\na24 = 24\na25 = 25\na26 = 26\na27 = 27\na28 = 28\na29 = 29\na30 = 30\na31 = 31\na32 = 32\na33 = 33\na34 = 34\na35 = 35\na36 = 36\na37 = 37\na38 = 38\na39 = 39\na40 = 40\na41 = 41\na42 = 42\na43 = 43\na44 = 44\na45 = 45\na46 = 46\na47 = 47\na48 = 48\n"

set_option maxRecDepth 1000000 in
set_option maxHeartbeats 4000000 in
/-- Witness for C8 at the concrete 50-line, 2-import, pattern-free file. -/
theorem C8_witness :
    (find_patterns utilityWitnessContent CRITICAL_PATTERNS = [] ∧
     find_patterns utilityWitnessContent COMPLEXITY_PATTERNS = [] ∧
     count_lines utilityWitnessContent < 100 ∧
     count_imports utilityWitnessContent ≤ 3) ∧
    (classify_from_content utilityWitnessContent).classification =
      Classification.utility := by
  have h1 : find_patterns utilityWitnessContent CRITICAL_PATTERNS = [] := by decide
  have h2 : find_patterns utilityWitnessContent COMPLEXITY_PATTERNS = [] := by decide
  have h3 : count_lines utilityWitnessContent < 100 := by decide
  have h4 : count_imports utilityWitnessContent ≤ 3 := by decide
  exact ⟨⟨h1, h2, h3, h4⟩,
    C8_small_clean_file_is_utility utilityWitnessContent h1 h2 h3 h4⟩

/-!
ast_parser.py — import extraction and the internal-module heuristic.

`parse_imports` walks the Python AST; an `import X` statement is an
`ast.Import` whose aliases carry `(name, asname)`, and a
`from M import N` statement is an `ast.ImportFrom` with `module : Option`
(`None` for the bare relative form `from . import N`, whose dots live in
`level`) — this Option-ness of `module` is Python AST semantics that the
code consumes via `node.module or ""`.
-/

/-- The `_COMMON_EXTERNAL_PREFIXES` frozenset of ast_parser.py. -/
def COMMON_EXTERNAL_PREFIXES : List (List Char) :=
  [str "os", str "sys", str "re", str "json", str "typing", str "collections",
   str "dataclasses", str "pathlib", str "asyncio", str "logging",
   str "datetime", str "time", str "random", str "functools", str "itertools",
   str "contextlib", str "abc", str "enum", str "uuid", str "hashlib",
   str "base64", str "urllib", str "http", str "email", str "html", str "xml",
   str "sqlite3", str "socket", str "threading", str "multiprocessing",
   str "subprocess", str "unittest", str "pytest", str "mock", str "requests",
   str "aiohttp", str "httpx", str "pydantic", str "sqlalchemy", str "django",
   str "flask", str "fastapi", str "celery", str "redis", str "kafka",
   str "boto3", str "numpy", str "pandas", str "scipy"]

/-- ast_parser._is_likely_internal_module. -/
def isLikelyInternalModule (module : List Char) : Bool :=
  if module.isEmpty then false
  else
    let top_level := module.takeWhile (fun c => c ≠ '.')
    if startsList (str "_") top_level then true
    else if COMMON_EXTERNAL_PREFIXES.contains (top_level.map Char.toLower) then false
    else if startsList (str ".") module then true
    else true

/-- One alias of an import statement: `(name, asname)`. -/
structure ImportAlias where
  name : List Char
  asname : Option (List Char)
deriving DecidableEq, Repr

/-- The two Python AST import statement forms. -/
inductive PyImportNode
  | importS (names : List ImportAlias)
  | importFrom (module : Option (List Char)) (names : List ImportAlias) (level : Nat)
deriving DecidableEq, Repr

/-- ast_parser.ImportInfo. -/
structure ImportInfo where
  module : List Char
  names : List (List Char)
  is_from_import : Bool
  is_internal : Bool
deriving DecidableEq, Repr

/-- ast_parser.parse_imports over the import statements of a module, in
walk order. -/
def parse_imports (nodes : List PyImportNode) : List ImportInfo :=
  nodes.flatMap (fun node =>
    match node with
    | .importS names =>
      names.map (fun al =>
        ⟨al.name, [al.asname.getD al.name], false,
         isLikelyInternalModule al.name⟩)
    | .importFrom module names _ =>
      [⟨module.getD [], names.map (fun al => al.name), true,
        isLikelyInternalModule (module.getD [])⟩])

/-- C1: evaluation of parse_imports on the three claimed statements.
`import os` gives is_internal = false as claimed, and `import
mycompany.widgets` gives is_internal = true as claimed; but the relative
relative import `from . import foo` (ImportFrom, module = None, level = 1)
gives is_internal = FALSE, because `node.module or ""` yields the empty
string, which `_is_likely_internal_module` rejects before its
relative-import check — contradicting the claimed is_internal = True. -/
theorem C1_import_classification_eval :
    parse_imports [.importS [⟨str "os", none⟩]] =
      [⟨str "os", [str "os"], false, false⟩] ∧
    parse_imports [.importFrom none [⟨str "foo", none⟩] 1] =
      [⟨[], [str "foo"], true, false⟩] ∧
    parse_imports [.importS [⟨str "mycompany.widgets", none⟩]] =
      [⟨str "mycompany.widgets", [str "mycompany.widgets"], false, true⟩] := by
  decide

/-!
measure_complexity.py — ComplexityAnalyzer and NestingAnalyzer.

The Python AST fragment the visitors dispatch on, as mutual inductives with
their own list types.  `ast.NodeVisitor.visit` dispatches on the node tag and
`generic_visit` recurses into the children in field order; the analyzers are
embedded as accumulator-threading functions in that same order.  Function
signatures are modelled without embedded expressions (no default-value or
annotation expressions), and expressions contain no statements, matching
Python's expression grammar.
-/

mutual
inductive PyExpr
  | name (id : String)
  | constE
  | boolOp (values : PyExprList)
  | binOp (a b : PyExpr)
  | compare (a b : PyExpr)
  | call (f : PyExpr) (args : PyExprList)
  | listComp (elt : PyExpr) (gens : PyCompList)
inductive PyExprList
  | nil
  | cons (e : PyExpr) (t : PyExprList)
inductive PyCompList
  | nil
  | cons (target iter : PyExpr) (ifs : PyExprList) (t : PyCompList)
end

mutual
inductive PyStmt
  | ifS (test : PyExpr) (body orelse : PyStmtList)
  | whileS (test : PyExpr) (body orelse : PyStmtList)
  | forS (target iter : PyExpr) (body orelse : PyStmtList)
  | withS (items : PyExprList) (body : PyStmtList)
  | tryS (body : PyStmtList) (handlers : PyHandlerList) (orelse finalbody : PyStmtList)
  | assertS (test : PyExpr)
  | exprS (e : PyExpr)
  | assign (target value : PyExpr)
  | augAssign (target value : PyExpr)
  | ret (e : Option PyExpr)
  | passS
inductive PyStmtList
  | nil
  | cons (s : PyStmt) (t : PyStmtList)
inductive PyHandlerList
  | nil
  | cons (body : PyStmtList) (t : PyHandlerList)
end

def lenExprList : PyExprList → Nat
  | .nil => 0
  | .cons _ t => lenExprList t + 1

/-!
ComplexityAnalyzer as accumulator threading: `visit` adds this node's
increment (if/while/for/except-handler/with/assert add 1, BoolOp adds
`len(values) - 1`, a comprehension adds `1 + len(ifs)`) and `generic_visit`
recurses into the children in field order.  (A CPython BoolOp always has at
least two operands; the truncated `- 1` below agrees with Python on every
tree CPython can produce.)
-/
mutual
def cExpr : PyExpr → Nat → Nat
  | .name _, acc => acc
  | .constE, acc => acc
  | .boolOp values, acc => cExprList values (acc + (lenExprList values - 1))
  | .binOp a b, acc => cExpr b (cExpr a acc)
  | .compare a b, acc => cExpr b (cExpr a acc)
  | .call f args, acc => cExprList args (cExpr f acc)
  | .listComp elt gens, acc => cCompList gens (cExpr elt acc)
def cExprList : PyExprList → Nat → Nat
  | .nil, acc => acc
  | .cons e t, acc => cExprList t (cExpr e acc)
def cCompList : PyCompList → Nat → Nat
  | .nil, acc => acc
  | .cons target iter ifs t, acc =>
    cCompList t (cExprList ifs (cExpr iter (cExpr target (acc + 1 + lenExprList ifs))))
end

mutual
def cStmt : PyStmt → Nat → Nat
  | .ifS test body orelse, acc => cStmtList orelse (cStmtList body (cExpr test (acc + 1)))
  | .whileS test body orelse, acc => cStmtList orelse (cStmtList body (cExpr test (acc + 1)))
  | .forS target iter body orelse, acc =>
    cStmtList orelse (cStmtList body (cExpr iter (cExpr target (acc + 1))))
  | .withS items body, acc => cStmtList body (cExprList items (acc + 1))
  | .tryS body handlers orelse finalbody, acc =>
    cStmtList finalbody (cStmtList orelse (cHandlerList handlers (cStmtList body acc)))
  | .assertS test, acc => cExpr test (acc + 1)
  | .exprS e, acc => cExpr e acc
  | .assign target value, acc => cExpr value (cExpr target acc)
  | .augAssign target value, acc => cExpr value (cExpr target acc)
  | .ret e, acc =>
    match e with
    | none => acc
    | some x => cExpr x acc
  | .passS, acc => acc
def cStmtList : PyStmtList → Nat → Nat
  | .nil, acc => acc
  | .cons s t, acc => cStmtList t (cStmt s acc)
def cHandlerList : PyHandlerList → Nat → Nat
  | .nil, acc => acc
  | .cons body t, acc => cHandlerList t (cStmtList body (acc + 1))
end

/-- measure_complexity.FunctionMetrics source: a FunctionDef node. -/
structure PyFunctionDef where
  name : String
  num_args : Nat
  body : PyStmtList

/-- measure_complexity.calculate_complexity: visit the function body with
base complexity 1. -/
def calculate_complexity (f : PyFunctionDef) : Nat := cStmtList f.body 1

/-!
Decision-point count per the spec's formula, stated as a direct sum over the
tree: one per conditional branch node (if, while, for, except clause, with
block, assert), operand-count − 1 per boolean-operator chain, and one per
comprehension generator plus one per filter condition.
-/

mutual
def dpExpr : PyExpr → Nat
  | .name _ => 0
  | .constE => 0
  | .boolOp values => (lenExprList values - 1) + dpExprList values
  | .binOp a b => dpExpr a + dpExpr b
  | .compare a b => dpExpr a + dpExpr b
  | .call f args => dpExpr f + dpExprList args
  | .listComp elt gens => dpExpr elt + dpCompList gens
def dpExprList : PyExprList → Nat
  | .nil => 0
  | .cons e t => dpExpr e + dpExprList t
def dpCompList : PyCompList → Nat
  | .nil => 0
  | .cons target iter ifs t =>
    1 + lenExprList ifs + dpExpr target + dpExpr iter + dpExprList ifs + dpCompList t
end

mutual
def dpStmt : PyStmt → Nat
  | .ifS test body orelse => 1 + dpExpr test + dpStmtList body + dpStmtList orelse
  | .whileS test body orelse => 1 + dpExpr test + dpStmtList body + dpStmtList orelse
  | .forS target iter body orelse =>
    1 + dpExpr target + dpExpr iter + dpStmtList body + dpStmtList orelse
  | .withS items body => 1 + dpExprList items + dpStmtList body
  | .tryS body handlers orelse finalbody =>
    dpStmtList body + dpHandlerList handlers + dpStmtList orelse + dpStmtList finalbody
  | .assertS test => 1 + dpExpr test
  | .exprS e => dpExpr e
  | .assign target value => dpExpr target + dpExpr value
  | .augAssign target value => dpExpr target + dpExpr value
  | .ret e =>
    match e with
    | none => 0
    | some x => dpExpr x
  | .passS => 0
def dpStmtList : PyStmtList → Nat
  | .nil => 0
  | .cons s t => dpStmt s + dpStmtList t
def dpHandlerList : PyHandlerList → Nat
  | .nil => 0
  | .cons body t => 1 + dpStmtList body + dpHandlerList t
end

mutual
theorem cExpr_eq : ∀ (e : PyExpr) (acc : Nat), cExpr e acc = acc + dpExpr e
  | .name _, acc => by simp [cExpr, dpExpr]
  | .constE, acc => by simp [cExpr, dpExpr]
  | .boolOp values, acc => by
    simp only [cExpr, dpExpr]
    rw [cExprList_eq values (acc + (lenExprList values - 1))]
    omega
  | .binOp a b, acc => by
    simp only [cExpr, dpExpr]
    rw [cExpr_eq b (cExpr a acc), cExpr_eq a acc]
    omega
  | .compare a b, acc => by
    simp only [cExpr, dpExpr]
    rw [cExpr_eq b (cExpr a acc), cExpr_eq a acc]
    omega
  | .call f args, acc => by
    simp only [cExpr, dpExpr]
    rw [cExprList_eq args (cExpr f acc), cExpr_eq f acc]
    omega
  | .listComp elt gens, acc => by
    simp only [cExpr, dpExpr]
    rw [cCompList_eq gens (cExpr elt acc), cExpr_eq elt acc]
    omega
theorem cExprList_eq : ∀ (l : PyExprList) (acc : Nat), cExprList l acc = acc + dpExprList l
  | .nil, acc => by simp [cExprList, dpExprList]
  | .cons e t, acc => by
    simp only [cExprList, dpExprList]
    rw [cExprList_eq t (cExpr e acc), cExpr_eq e acc]
    omega
theorem cCompList_eq : ∀ (l : PyCompList) (acc : Nat), cCompList l acc = acc + dpCompList l
  | .nil, acc => by simp [cCompList, dpCompList]
  | .cons target iter ifs t, acc => by
    simp only [cCompList, dpCompList]
    rw [cCompList_eq t (cExprList ifs (cExpr iter (cExpr target (acc + 1 + lenExprList ifs)))),
      cExprList_eq ifs (cExpr iter (cExpr target (acc + 1 + lenExprList ifs))),
      cExpr_eq iter (cExpr target (acc + 1 + lenExprList ifs)),
      cExpr_eq target (acc + 1 + lenExprList ifs)]
    omega
end

mutual
theorem cStmt_eq : ∀ (s : PyStmt) (acc : Nat), cStmt s acc = acc + dpStmt s
  | .ifS test body orelse, acc => by
    simp only [cStmt, dpStmt]
    rw [cStmtList_eq orelse (cStmtList body (cExpr test (acc + 1))),
      cStmtList_eq body (cExpr test (acc + 1)), cExpr_eq test (acc + 1)]
    omega
  | .whileS test body orelse, acc => by
    simp only [cStmt, dpStmt]
    rw [cStmtList_eq orelse (cStmtList body (cExpr test (acc + 1))),
      cStmtList_eq body (cExpr test (acc + 1)), cExpr_eq test (acc + 1)]
    omega
  | .forS target iter body orelse, acc => by
    simp only [cStmt, dpStmt]
    rw [cStmtList_eq orelse (cStmtList body (cExpr iter (cExpr target (acc + 1)))),
      cStmtList_eq body (cExpr iter (cExpr target (acc + 1))),
      cExpr_eq iter (cExpr target (acc + 1)), cExpr_eq target (acc + 1)]
    omega
  | .withS items body, acc => by
    simp only [cStmt, dpStmt]
    rw [cStmtList_eq body (cExprList items (acc + 1)), cExprList_eq items (acc + 1)]
    omega
  | .tryS body handlers orelse finalbody, acc => by
    simp only [cStmt, dpStmt]
    rw [cStmtList_eq finalbody (cStmtList orelse (cHandlerList handlers (cStmtList body acc))),
      cStmtList_eq orelse (cHandlerList handlers (cStmtList body acc)),
      cHandlerList_eq handlers (cStmtList body acc), cStmtList_eq body acc]
    omega
  | .assertS test, acc => by
    simp only [cStmt, dpStmt]
    rw [cExpr_eq test (acc + 1)]
    omega
  | .exprS e, acc => by
    simp only [cStmt, dpStmt]
    rw [cExpr_eq e acc]
  | .assign target value, acc => by
    simp only [cStmt, dpStmt]
    rw [cExpr_eq value (cExpr target acc), cExpr_eq target acc]
    omega
  | .augAssign target value, acc => by
    simp only [cStmt, dpStmt]
    rw [cExpr_eq value (cExpr target acc), cExpr_eq target acc]
    omega
  | .ret none, acc => by simp [cStmt, dpStmt]
  | .ret (some x), acc => by
    simp only [cStmt, dpStmt]
    rw [cExpr_eq x acc]
  | .passS, acc => by simp [cStmt, dpStmt]
theorem cStmtList_eq : ∀ (l : PyStmtList) (acc : Nat), cStmtList l acc = acc + dpStmtList l
  | .nil, acc => by simp [cStmtList, dpStmtList]
  | .cons s t, acc => by
    simp only [cStmtList, dpStmtList]
    rw [cStmtList_eq t (cStmt s acc), cStmt_eq s acc]
    omega
theorem cHandlerList_eq : ∀ (l : PyHandlerList) (acc : Nat),
    cHandlerList l acc = acc + dpHandlerList l
  | .nil, acc => by simp [cHandlerList, dpHandlerList]
  | .cons body t, acc => by
    simp only [cHandlerList, dpHandlerList]
    rw [cHandlerList_eq t (cStmtList body (acc + 1)), cStmtList_eq body (acc + 1)]
    omega
end

/-- A function with no branch, boolean-chain or comprehension nodes:
`x = 1; return x`. -/
def plainFn : PyFunctionDef :=
  ⟨"g", 0, .cons (.assign (.name "x") .constE) (.cons (.ret (some (.name "x"))) .nil)⟩

/-- A function containing one `if`, one `for` and one two-operand `and`:
`if a and b: pass` followed by `for i in xs: pass`. -/
def ifForAndFn : PyFunctionDef :=
  ⟨"f", 0,
   .cons (.ifS (.boolOp (.cons (.name "a") (.cons (.name "b") .nil)))
     (.cons .passS .nil) .nil)
     (.cons (.forS (.name "i") (.name "xs") (.cons .passS .nil) .nil) .nil)⟩

/-- C3: cyclomatic complexity is exactly 1 plus the decision-point sum (one
per if/while/for/except-clause/with/assert node, operand-count − 1 per
boolean chain, one per comprehension generator and one per filter); in
particular a function with none of these scores 1, and a function with one
`if`, one `for` and one two-operand `and` scores 4. -/
theorem C3_cyclomatic_complexity_formula :
    (∀ f : PyFunctionDef, calculate_complexity f = 1 + dpStmtList f.body) ∧
    calculate_complexity plainFn = 1 ∧
    calculate_complexity ifForAndFn = 4 :=
  ⟨fun f => cStmtList_eq f.body 1, rfl, rfl⟩

/-!
NestingAnalyzer: `_visit_nested` (installed for If, While, For, With, Try)
increments the current depth, folds it into the running maximum, visits the
children at the new depth and restores the depth on exit.  Expressions
contain no statements, so visiting them cannot change the maximum; except
handlers are not nested-counted themselves, their bodies stay at the depth
of the enclosing try.
-/

mutual
def nStmt : PyStmt → Nat → Nat → Nat
  | .ifS _ body orelse, cur, mx =>
    nStmtList orelse (cur + 1) (nStmtList body (cur + 1) (max mx (cur + 1)))
  | .whileS _ body orelse, cur, mx =>
    nStmtList orelse (cur + 1) (nStmtList body (cur + 1) (max mx (cur + 1)))
  | .forS _ _ body orelse, cur, mx =>
    nStmtList orelse (cur + 1) (nStmtList body (cur + 1) (max mx (cur + 1)))
  | .withS _ body, cur, mx => nStmtList body (cur + 1) (max mx (cur + 1))
  | .tryS body handlers orelse finalbody, cur, mx =>
    nStmtList finalbody (cur + 1)
      (nStmtList orelse (cur + 1)
        (nHandlerList handlers (cur + 1) (nStmtList body (cur + 1) (max mx (cur + 1)))))
  | .assertS _, _, mx => mx
  | .exprS _, _, mx => mx
  | .assign _ _, _, mx => mx
  | .augAssign _ _, _, mx => mx
  | .ret _, _, mx => mx
  | .passS, _, mx => mx
def nStmtList : PyStmtList → Nat → Nat → Nat
  | .nil, _, mx => mx
  | .cons s t, cur, mx => nStmtList t cur (nStmt s cur mx)
def nHandlerList : PyHandlerList → Nat → Nat → Nat
  | .nil, _, mx => mx
  | .cons body t, cur, mx => nHandlerList t cur (nStmtList body cur mx)
end

/-- measure_complexity.calculate_max_nesting: visit the function body at
depth 0 with maximum 0. -/
def calculate_max_nesting (f : PyFunctionDef) : Nat := nStmtList f.body 0 0

/-- A function whose body is an `if` containing another `if`. -/
def nestedIfFn : PyFunctionDef :=
  ⟨"h", 0,
   .cons (.ifS (.name "a")
     (.cons (.ifS (.name "b") (.cons .passS .nil) .nil) .nil) .nil) .nil⟩

/-- A function whose body is an `if` followed by a sibling `if`. -/
def siblingIfFn : PyFunctionDef :=
  ⟨"k", 0,
   .cons (.ifS (.name "a") (.cons .passS .nil) .nil)
     (.cons (.ifS (.name "b") (.cons .passS .nil) .nil) .nil)⟩

/-- C4: maximum nesting depth takes the maximum over the traversal, not the
sum over siblings: an `if` inside an `if` has depth 2, two sibling `if`
blocks have depth 1. -/
theorem C4_nesting_max_not_sum :
    calculate_max_nesting nestedIfFn = 2 ∧ calculate_max_nesting siblingIfFn = 1 :=
  ⟨rfl, rfl⟩

/-!
comment_rewriter.py — classify_comment and suggest_rewrite.  Each
pre-compiled regex of the module is embedded as a matcher; the `re.compile`
lists are lists of matchers checked in order.
-/

/-- Failing matcher (empty alternation base case). -/
def failM : Matcher := fun _ _ => []

/-- Alternation over case-insensitive literals, in list order. -/
def altListCIM : List (List Char) → Matcher
  | [] => failM
  | w :: ws => altM (litCIM w) (altListCIM ws)

def wsStar : Matcher := starM isPySpace

def wsPlus : Matcher := plusM isPySpace

def wordPlus : Matcher := plusM isWordChar

def hashM : Matcher := litM (str "#")

/-- The _CODE_PATTERNS regexes (backup / commented-out code), applied with
`pattern.match`, i.e. anchored at the start. -/
def CODE_PATTERNS_M : List Matcher :=
  [seqM wsStar (seqM hashM (seqM wsStar (seqM
     (altListCIM [str "def", str "class", str "import", str "from", str "if",
       str "for", str "while", str "try", str "except", str "with",
       str "return", str "yield", str "raise"]) wsPlus))),
   seqM wsStar (seqM hashM (seqM wsStar (seqM wordPlus (seqM wsStar
     (charM (fun c => c = '=' || c = '(')))))),
   seqM wsStar (seqM hashM (seqM wsStar (seqM wordPlus (seqM (litM (str "."))
     (seqM wordPlus (litM (str "("))))))),
   seqM wsStar (seqM hashM (seqM wsStar (seqM (litM (str "@")) wordPlus))),
   seqM wsStar (seqM hashM (seqM wsStar (seqM wordPlus (seqM (litM (str ":"))
     (seqM wsStar (seqM wordPlus (seqM wsStar
       (charM (fun c => c = '=' || c = ',')))))))))]

/-- The _DEBT_PATTERNS regexes `\bKEYWORD\b` (IGNORECASE), searched. -/
def DEBT_PATTERNS_M : List Matcher :=
  [wordCIM (str "TODO"), wordCIM (str "FIXME"), wordCIM (str "XXX"),
   wordCIM (str "HACK"), wordCIM (str "BUG"), wordCIM (str "WORKAROUND"),
   wordCIM (str "TEMP"), wordCIM (str "TEMPORARY")]

/-- The _TRIVIAL_INDICATORS pairs: a comment pattern searched in the raw
comment text (IGNORECASE) and a code pattern searched in the line content
(case-sensitive). -/
def TRIVIAL_INDICATORS_M : List (Matcher × Matcher) :=
  [(seqM hashM (seqM wsStar (seqM (litCIM (str "increment")) boundaryM)),
    altM (litM (str "++")) (seqM (litM (str "+=")) (seqM wsStar (litM (str "1"))))),
   (seqM hashM (seqM wsStar (seqM (litCIM (str "decrement")) boundaryM)),
    altM (litM (str "--")) (seqM (litM (str "-=")) (seqM wsStar (litM (str "1"))))),
   (seqM hashM (seqM wsStar (seqM (litCIM (str "return")) boundaryM)),
    wordM (str "return")),
   (seqM hashM (seqM wsStar (seqM (litCIM (str "loop")) boundaryM)),
    altM (wordM (str "for")) (wordM (str "while"))),
   (seqM hashM (seqM wsStar (seqM (litCIM (str "import")) boundaryM)),
    wordM (str "import")),
   (seqM hashM (seqM wsStar (seqM (litCIM (str "set")) (seqM wsPlus wordPlus))),
    litM (str "=")),
   (seqM hashM (seqM wsStar (seqM (litCIM (str "call")) (seqM wsPlus wordPlus))),
    litM (str "(")),
   (seqM hashM (seqM wsStar (seqM (litCIM (str "if")) (seqM wsPlus wordPlus))),
    wordM (str "if"))]

/-- The _CHECKLIST_PATTERNS regexes, searched in the lowercased text. -/
def CHECKLIST_PATTERNS_M : List Matcher :=
  [seqM boundaryM (seqM (litM (str "if you "))
     (altM (seqM (litM (str "change")) boundaryM)
       (altM (seqM (litM (str "modify")) boundaryM)
         (seqM (litM (str "update")) boundaryM)))),
   wordM (str "remember to"),
   seqM boundaryM (seqM (litM (str "don"))
     (seqM (optM (charM (fun c => c = '\x27')))
       (seqM (litM (str "t forget")) boundaryM))),
   wordM (str "also update"),
   wordM (str "must be kept in sync"),
   wordM (str "see also"),
   wordM (str "when changing")]

/-- The _WHY_PATTERNS regexes, searched in the lowercased text. -/
def WHY_PATTERNS_M : List Matcher :=
  [wordM (str "because"),
   wordM (str "the reason"),
   seqM boundaryM (seqM (litM (str "we "))
     (seqM (altM (litM (str "do")) (litM (str "use")))
       (seqM (litM (str " this")) boundaryM))),
   seqM boundaryM (seqM (litM (str "this is "))
     (altM (seqM (litM (str "necessary")) boundaryM)
       (altM (seqM (litM (str "needed")) boundaryM)
         (seqM (litM (str "required")) boundaryM)))),
   wordM (str "to avoid"),
   wordM (str "to prevent"),
   wordM (str "workaround for"),
   wordM (str "due to"),
   wordM (str "required by"),
   wordM (str "historically")]

/-- The _TEACHER_PATTERNS regexes, searched in the lowercased text. -/
def TEACHER_PATTERNS_M : List Matcher :=
  [wordM (str "algorithm"),
   wordM (str "protocol"),
   wordM (str "formula"),
   wordM (str "equation"),
   wordM (str "theorem"),
   seqM boundaryM (seqM (litM (str "rfc"))
     (seqM wsStar (seqM (plusM Char.isDigit) boundaryM))),
   seqM boundaryM (seqM (litM (str "see "))
     (seqM (altM (litM (str "http")) (litM (str "https")))
       (seqM (litM (str "://")) boundaryM))),
   wordM (str "refer to"),
   wordM (str "explained in")]

/-- The _GUIDE_PATTERNS regexes, applied anchored with `pattern.match`. -/
def GUIDE_PATTERNS_M : List Matcher :=
  [seqM wsStar (seqM (plusM (fun c => c = '-' || c = '=')) (seqM wsStar endM)),
   seqM wsStar (seqM (plusM (fun c => c = '#')) (litM (str " "))),
   seqM wsStar (seqM (litCIM (str "section"))
     (seqM wsStar (seqM (optM (charM (fun c => c = ':'))) wsStar))),
   seqM wsStar (seqM (plusM (fun c => c = '/' || c = '*')) (litM (str " ")))]

inductive CommentType
  | function | design | why | teacher | checklist | guide | trivial | debt
  | backup | unknown
deriving DecidableEq, Repr

inductive CommentClassification
  | keep | enhance | rewrite | delete
deriving DecidableEq, Repr

/-- Python truthiness of the optional `line_content` string. -/
def lineContentTruthy : Option (List Char) → Bool
  | none => false
  | some lc => !lc.isEmpty

/-- comment_rewriter.classify_comment: the ordered rule cascade, first
matching rule wins. -/
def classify_comment (text raw_text : List Char) (is_inline is_docstring : Bool)
    (line_content : Option (List Char)) :
    CommentType × CommentClassification × String :=
  let text_lower := text.map Char.toLower
  if is_docstring then
    if text.length < 10 then
      (CommentType.function, CommentClassification.enhance,
       "Docstring too brief - needs more detail")
    else
      (CommentType.function, CommentClassification.keep,
       "Docstring provides API documentation")
  else if CODE_PATTERNS_M.any (fun m => matchAtStart m raw_text) then
    (CommentType.backup, CommentClassification.delete,
     "Commented-out code should be removed (use git history)")
  else if DEBT_PATTERNS_M.any (fun m => search m text) then
    (CommentType.debt, CommentClassification.rewrite,
     "Debt marker found - resolve or document in design comments")
  else if lineContentTruthy line_content && is_inline &&
      TRIVIAL_INDICATORS_M.any (fun pr =>
        search pr.1 raw_text && search pr.2 (line_content.getD [])) then
    (CommentType.trivial, CommentClassification.delete,
     "Comment restates what code already says")
  else if CHECKLIST_PATTERNS_M.any (fun m => search m text_lower) then
    (CommentType.checklist, CommentClassification.keep,
     "Checklist comment - reminds of coordinated changes")
  else if WHY_PATTERNS_M.any (fun m => search m text_lower) then
    (CommentType.why, CommentClassification.keep,
     "Why comment - explains reasoning behind code")
  else if TEACHER_PATTERNS_M.any (fun m => search m text_lower) then
    (CommentType.teacher, CommentClassification.keep,
     "Teacher comment - educates about domain concepts")
  else if GUIDE_PATTERNS_M.any (fun m => matchAtStart m text) then
    (CommentType.guide, CommentClassification.keep,
     "Guide comment - provides structure and rhythm")
  else if is_inline && text.length < 20 then
    (CommentType.trivial, CommentClassification.enhance,
     "Short inline comment - consider expanding or removing")
  else
    (CommentType.unknown, CommentClassification.enhance,
     "Cannot classify automatically - human review needed")

/-- comment_rewriter.CommentInfo. -/
structure CommentInfo where
  line_number : Nat
  column : Nat
  text : List Char
  raw_text : List Char
  is_docstring : Bool
  is_inline : Bool
  comment_type : CommentType
  classification : CommentClassification
  reason : String
  suggestion : Option (List Char)
deriving Repr

/-- The _DEBT_REMOVAL_PATTERN regex
`\b(?:TODO|FIXME|XXX|HACK|BUG|WORKAROUND|TEMP|TEMPORARY)\b:?\s*`
(IGNORECASE). -/
def debtRemovalM : Matcher :=
  seqM boundaryM (seqM
    (altListCIM [str "TODO", str "FIXME", str "XXX", str "HACK", str "BUG",
      str "WORKAROUND", str "TEMP", str "TEMPORARY"])
    (seqM boundaryM (seqM (optM (charM (fun c => c = ':'))) wsStar)))

/-- Core of `re.sub` with an empty replacement: at each position take the
engine's preferred match and skip it, else emit one character.  Fuel bounds
scan steps; every step consumes at least one character of input, so
`length + 1` fuel always suffices (the pattern cannot match emptily). -/
def subAllFuel (m : Matcher) : Nat → Option Char → List Char → List Char
  | 0, _, s => s
  | fuel + 1, prev, s =>
    match headMatch m prev s with
    | some pr => subAllFuel m fuel pr.1 pr.2
    | none =>
      match s with
      | [] => []
      | c :: r => c :: subAllFuel m fuel (some c) r

/-- `_DEBT_REMOVAL_PATTERN.sub("", text)`. -/
def subDebt (text : List Char) : List Char :=
  subAllFuel debtRemovalM (text.length + 1) none text

/-- The docstring-expansion template suggested for brief docstrings. -/
def docstringTemplate : List Char :=
  str "\x22\x22\x22[Brief description of what this does]\n\nArgs:\n    [parameter]: [description]\n\nReturns:\n    [description of return value]\n\nRaises:\n    [Exception]: [when it is raised]\n\x22\x22\x22"

/-- comment_rewriter.suggest_rewrite (its context arguments are unused by
the source body and omitted here). -/
def suggest_rewrite (comment : CommentInfo) : Option (List Char) :=
  if comment.classification = CommentClassification.delete then none
  else if comment.comment_type = CommentType.debt then
    some (str "# DESIGN DECISION: " ++ stripChars (subDebt comment.text) ++
      str "\n# Context: [Add why this is deferred and conditions for completion]")
  else if comment.comment_type = CommentType.trivial then
    some (str "# WHY: [Explain the reasoning behind this code, not what it does]")
  else if comment.comment_type = CommentType.function ∧
      comment.classification = CommentClassification.enhance then
    some docstringTemplate
  else none

/-- The per-comment construction of `_analyze_comments_impl` (lines
522-551): classify a regular comment, build its CommentInfo and attach the
suggestion. -/
def buildCommentInfo (line_num col : Nat) (text raw_text : List Char)
    (is_inline : Bool) (line_content : List Char) : CommentInfo :=
  let ccr := classify_comment text raw_text is_inline false (some line_content)
  let base : CommentInfo :=
    ⟨line_num, col, text, raw_text, false, is_inline, ccr.1, ccr.2.1, ccr.2.2, none⟩
  ⟨line_num, col, text, raw_text, false, is_inline, ccr.1, ccr.2.1, ccr.2.2,
   suggest_rewrite base⟩

/-- The CommentInfo the analysis builds for the standalone comment line
`# TODO: fix this`. -/
def todoInfo : CommentInfo :=
  buildCommentInfo 1 0 (str "TODO: fix this") (str "# TODO: fix this") false
    (str "# TODO: fix this")

/-- C5: the standalone comment `# TODO: fix this` classifies as type=debt
with action=rewrite, and its generated suggestion contains "DESIGN
DECISION" and does not contain the word "TODO". -/
theorem C5_todo_debt_rewrite_suggestion :
    todoInfo.comment_type = CommentType.debt ∧
    todoInfo.classification = CommentClassification.rewrite ∧
    todoInfo.suggestion.isSome = true ∧
    containsSub (str "DESIGN DECISION") (todoInfo.suggestion.getD []) = true ∧
    containsSub (str "TODO") (todoInfo.suggestion.getD []) = false := by
  refine ⟨rfl, rfl, rfl, by decide, by decide⟩

/-- C6: the inline comment `# Increment i` on the source line
`i += 1  # Increment i` classifies as type=trivial with action=delete
(trivial phrase matched and its paired code pattern present on the line). -/
theorem C6_inline_increment_trivial_delete :
    (classify_comment (str "Increment i") (str "# Increment i") true false
      (some (str "i += 1  # Increment i"))).1 = CommentType.trivial ∧
    (classify_comment (str "Increment i") (str "# Increment i") true false
      (some (str "i += 1  # Increment i"))).2.1 = CommentClassification.delete :=
  ⟨rfl, rfl⟩

/-- C10: with is_docstring=True, classify_comment ignores raw_text,
is_inline and line_content entirely; the (type, action, reason) triple is
determined solely by whether the text is shorter than 10 characters
(enhance) or not (keep), the type always being function. -/
theorem C10_docstring_classification_independent (text raw1 raw2 : List Char)
    (i1 i2 : Bool) (lc1 lc2 : Option (List Char)) :
    classify_comment text raw1 i1 true lc1 = classify_comment text raw2 i2 true lc2 ∧
    classify_comment text raw1 i1 true lc1 =
      (if text.length < 10 then
        (CommentType.function, CommentClassification.enhance,
         "Docstring too brief - needs more detail")
       else
        (CommentType.function, CommentClassification.keep,
         "Docstring provides API documentation")) :=
  ⟨rfl, rfl⟩

/-!
comment_rewriter.CommentRewriter.rewrite_file.  The comment tokens and the
docstrings are produced by the consumed external interfaces `tokenize` and
`ast` (spec section 6); they are passed in as parameters, deterministic
functions of the content.  Everything the module itself does with them —
classification, suggestions, line modifications, bottom-up deletions, the
final join, and the dry_run gate — is embedded below.  Line numbers from
`tokenize`/`ast` are 1-based; `content.splitlines()` is modelled for
newline-separated text.
-/

structure RawComment where
  line : Nat
  col : Nat
  text : List Char
  raw : List Char
  is_inline : Bool

/-- Python `content.splitlines()` for newline-separated text: like
`split("\n")` but without a trailing empty piece. -/
def splitlinesPy (content : List Char) : List (List Char) :=
  if content.isEmpty then []
  else
    let parts := splitOnNl content
    if content.getLast? = some '\n' then parts.dropLast else parts

def tripleQuote (s : List Char) : List Char :=
  str "\x22\x22\x22" ++ s ++ str "\x22\x22\x22"

/-- The comment-collection phase of `_analyze_comments_impl`: classify each
regular comment with its line content, classify each docstring, and sort the
result by line number (Python's stable sort; mergeSort is stable). -/
def analyzeComments (content : List Char) (toks : List RawComment)
    (docs : List (Nat × List Char)) : List CommentInfo :=
  let lines := splitlinesPy content
  let commentInfos := toks.map (fun tk =>
    let line_content := if tk.line ≤ lines.length then lines.getD (tk.line - 1) [] else []
    buildCommentInfo tk.line tk.col tk.text tk.raw tk.is_inline line_content)
  let docInfos := docs.map (fun d =>
    let ccr := classify_comment d.2 (tripleQuote d.2) false true none
    (⟨d.1, 0, d.2, tripleQuote d.2, true, false, ccr.1, ccr.2.1, ccr.2.2, none⟩ :
      CommentInfo))
  (commentInfos ++ docInfos).mergeSort (fun a b => a.line_number ≤ b.line_number)

/-- Python `set.add`. -/
def setAdd (s : List Nat) (x : Nat) : List Nat :=
  if s.contains x then s else s ++ [x]

def dictContains (d : List (Nat × List Char)) (k : Nat) : Bool :=
  d.any (fun p => p.1 = k)

/-- Python dict assignment: overwrite in place or append in insertion
order. -/
def dictInsert (d : List (Nat × List Char)) (k : Nat) (v : List Char) :
    List (Nat × List Char) :=
  if dictContains d k then d.map (fun p => if p.1 = k then (k, v) else p)
  else d ++ [(k, v)]

/-- Python `s.rstrip()`. -/
def rstripChars (s : List Char) : List Char :=
  (s.reverse.dropWhile isPySpace).reverse

def natChars (n : Nat) : List Char := (toString n).data

/-- Python `"\n".join(...)`. -/
def joinNl : List (List Char) → List Char
  | [] => []
  | l :: rest => l ++ rest.flatMap (fun x => List.cons '\n' x)

/-- State threaded through the comment loop of rewrite_file: the deletion
set, the modification dict and the change log. -/
structure RewriteState where
  lines_to_delete : List Nat
  line_modifications : List (Nat × List Char)
  changes : List (List Char)

/-- One iteration of the comment loop of rewrite_file (lines 690-736). -/
def processComment (lines : List (List Char)) (st : RewriteState)
    (c : CommentInfo) : RewriteState :=
  if c.is_docstring then st
  else
    let line_idx := c.line_number - 1
    if c.line_number = 0 ∨ ¬ line_idx < lines.length then st
    else
      let old_line := lines.getD line_idx []
      if c.classification = CommentClassification.delete then
        if c.is_inline then
          let new_line := rstripChars (old_line.take c.column)
          if ¬ (stripChars new_line).isEmpty then
            ⟨st.lines_to_delete, dictInsert st.line_modifications line_idx new_line,
             st.changes ++ [str "Line " ++ natChars c.line_number ++
               str ": Removed inline comment: " ++ c.text.take 50 ++ str "..."]⟩
          else
            ⟨setAdd st.lines_to_delete line_idx, st.line_modifications,
             st.changes ++ [str "Line " ++ natChars c.line_number ++
               str ": Deleted line (empty after comment removal)"]⟩
        else
          if startsList (str "#") (stripChars old_line) then
            ⟨setAdd st.lines_to_delete line_idx, st.line_modifications,
             st.changes ++ [str "Line " ++ natChars c.line_number ++
               str ": Deleted comment line: " ++ c.text.take 50 ++ str "..."]⟩
          else st
      else if c.classification = CommentClassification.rewrite ∧ c.suggestion.isSome then
        let sug := c.suggestion.getD []
        let indent := old_line.length - (old_line.dropWhile isPySpace).length
        let indent_str := List.replicate indent ' '
        let suggestion_text := joinNl ((splitOnNl sug).map (fun l => indent_str ++ l))
        if ¬ dictContains st.line_modifications line_idx then
          ⟨st.lines_to_delete,
           dictInsert st.line_modifications line_idx
             (suggestion_text ++ List.cons '\n' old_line),
           st.changes ++ [str "Line " ++ natChars c.line_number ++
             str ": Suggested rewrite for: " ++ c.text.take 50 ++ str "..."]⟩
        else st
      else st

/-- Apply the modification dict: each modified index not marked for deletion
gets its new content. -/
def applyModifications (lines : List (List Char)) (mods : List (Nat × List Char))
    (dels : List Nat) : List (List Char) :=
  mods.foldl (fun ls p => if dels.contains p.1 then ls else ls.set p.1 p.2) lines

/-- Python `lines.pop(idx)` guarded by `0 <= idx < len(lines)`. -/
def popIdx (ls : List (List Char)) (idx : Nat) : List (List Char) :=
  if idx < ls.length then ls.eraseIdx idx else ls

/-- Delete marked lines from highest index to lowest. -/
def applyDeletions (lines : List (List Char)) (dels : List Nat) : List (List Char) :=
  (dels.mergeSort (fun a b => b ≤ a)).foldl popIdx lines

structure RewriteOutput where
  rewritten : List Char
  changes : List (List Char)
  written : Option (List Char)

/-- comment_rewriter.CommentRewriter.rewrite_file on in-memory content: the
returned rewritten text, the change log, and the disk-write effect (the
content written to the target, if any). -/
def rewrite_file_model (content : List Char) (toks : List RawComment)
    (docs : List (Nat × List Char)) (target : List Char) (dry_run : Bool) :
    RewriteOutput :=
  let lines := splitlinesPy content
  let comments := analyzeComments content toks docs
  let st := comments.foldl (processComment lines) ⟨[], [], []⟩
  let lines1 := applyModifications lines st.line_modifications st.lines_to_delete
  let lines2 := applyDeletions lines1 st.lines_to_delete
  let rewritten := joinNl lines2
  if dry_run then ⟨rewritten, st.changes, none⟩
  else ⟨rewritten, st.changes ++ [str "Wrote changes to: " ++ target], some rewritten⟩

/-- C7: rewrite_file computes the same rewritten content whether or not
dry_run is set; dry_run only suppresses the disk write (and its change-log
entry).  The tokenizer and docstring extractor are deterministic functions
of the unmodified input, so the two runs see identical analyses; this holds
for every possible value of their outputs. -/
theorem C7_dry_run_returns_same_content (content : List Char)
    (toks : List RawComment) (docs : List (Nat × List Char)) (target : List Char) :
    (rewrite_file_model content toks docs target true).rewritten =
      (rewrite_file_model content toks docs target false).rewritten ∧
    (rewrite_file_model content toks docs target true).written = none ∧
    (rewrite_file_model content toks docs target false).written =
      some ((rewrite_file_model content toks docs target false).rewritten) :=
  ⟨rfl, rfl, rfl⟩

end DeepDive
